import Mathlib

/-!
Verification of the two scripts in this repository against their design
spec: `compare_models.py` (a dbt model-diff orchestrator) and
`email_processor.py` (a Workday mailbox-to-Google-Sheets pipeline).

Each Python function relevant to a spec claim is shallowly embedded as an
executable Lean definition.  External effects (filesystem, git, dbt,
Google APIs) are represented by explicit inputs describing their outcomes
and by explicit state values (association lists of file names).
-/

/-! ## Generic helpers -/

/-- Lookup in an association list by key (first match), mirroring Python
`dict.get` / checking a store of named files. -/
def alistLookup : List (String × String) → String → Option String
  | [], _ => none
  | (k, v) :: rest, n => if k = n then some v else alistLookup rest n

/-- Write (upsert) a key/value pair into an association list, mirroring a
filesystem write that overwrites an existing file of the same name. -/
def storeWrite : List (String × String) → String → String → List (String × String)
  | [], n, c => [(n, c)]
  | (k, v) :: rest, n, c =>
      if k = n then (n, c) :: rest else (k, v) :: storeWrite rest n c

theorem alistLookup_storeWrite_self (s : List (String × String)) (n c : String) :
    alistLookup (storeWrite s n c) n = some c := by
  induction s with
  | nil => simp [storeWrite, alistLookup]
  | cons hd tl ih =>
      obtain ⟨k, v⟩ := hd
      by_cases hk : k = n
      · simp [storeWrite, hk, alistLookup]
      · simp [storeWrite, hk, alistLookup, ih]

theorem alistLookup_storeWrite_ne (s : List (String × String)) (n c m : String)
    (h : m ≠ n) : alistLookup (storeWrite s n c) m = alistLookup s m := by
  induction s with
  | nil => simp [storeWrite, alistLookup, Ne.symm h]
  | cons hd tl ih =>
      obtain ⟨k, v⟩ := hd
      by_cases hk : k = n
      · subst hk
        simp [storeWrite, alistLookup, Ne.symm h]
      · simp [storeWrite, hk, alistLookup, ih]

/-! ## Decimal rendering of integers

Python renders integers into f-strings in decimal.  We model that
rendering explicitly so that properties of the produced strings (all
characters are digits, no character is a colon) are provable. -/

/-- The character for a single decimal digit, `chr(48 + d)`. -/
def digitChar10 (d : Nat) : Char := Char.ofNat (48 + d)

/-- Accumulator pass producing the decimal digits of `n` (most significant
first) in front of `acc`. -/
def natDecimalAux (n : Nat) (acc : List Char) : List Char :=
  if h : n = 0 then acc
  else natDecimalAux (n / 10) (digitChar10 (n % 10) :: acc)
termination_by n
decreasing_by exact Nat.div_lt_self (Nat.pos_of_ne_zero h) (by decide)

/-- Decimal rendering of a natural number, as Python `str(n)` / `f"{n}"`. -/
def natDecimalChars (n : Nat) : List Char :=
  if n = 0 then ['0'] else natDecimalAux n []

/-! ## Character class checks used to judge A1 notation -/

/-- `c` is one of the uppercase letters `A`..`Z`. -/
def isUpperAZ (c : Char) : Bool :=
  decide (65 ≤ c.toNat) && decide (c.toNat ≤ 90)

/-- `c` is one of the digits `0`..`9`. -/
def isDigit09 (c : Char) : Bool :=
  decide (48 ≤ c.toNat) && decide (c.toNat ≤ 57)

theorem char_ofNat_toNat (n : Nat) :
    (Char.ofNat n).toNat = if n.isValidChar then n else 0 := by
  unfold Char.ofNat
  split
  · rfl
  · rfl

theorem digitChar10_isDigit (d : Nat) (hd : d < 10) :
    isDigit09 (digitChar10 d) = true := by
  have hv : (48 + d).isValidChar := by
    constructor
    omega
  simp [digitChar10, isDigit09, char_ofNat_toNat, hv]
  omega

theorem natDecimalAux_spec (n : Nat) (acc : List Char) :
    ∃ ds, natDecimalAux n acc = ds ++ acc ∧ (∀ c ∈ ds, isDigit09 c = true) ∧
      (n ≠ 0 → ds ≠ []) := by
  induction n using Nat.strong_induction_on generalizing acc with
  | _ n ih =>
    by_cases h : n = 0
    · exact ⟨[], by simp [natDecimalAux, h], by simp, by simp [h]⟩
    · have hlt : n / 10 < n := Nat.div_lt_self (Nat.pos_of_ne_zero h) (by decide)
      obtain ⟨ds, hds, hdig, _⟩ := ih (n / 10) hlt (digitChar10 (n % 10) :: acc)
      refine ⟨ds ++ [digitChar10 (n % 10)], ?_, ?_, ?_⟩
      · rw [natDecimalAux]
        simp [h, hds]
      · intro c hc
        rcases List.mem_append.mp hc with hc | hc
        · exact hdig c hc
        · simp at hc
          subst hc
          exact digitChar10_isDigit _ (Nat.mod_lt _ (by decide))
      · intro _
        simp

theorem natDecimalChars_digits (n : Nat) :
    (∀ c ∈ natDecimalChars n, isDigit09 c = true) ∧ natDecimalChars n ≠ [] := by
  by_cases h : n = 0
  · subst h
    constructor
    · intro c hc
      simp [natDecimalChars] at hc
      subst hc
      decide
    · simp [natDecimalChars]
  · obtain ⟨ds, hds, hdig, hne⟩ := natDecimalAux_spec n []
    simp at hds
    constructor
    · intro c hc
      simp [natDecimalChars, h, hds] at hc
      exact hdig c hc
    · simp [natDecimalChars, h, hds]
      exact hne h

theorem isDigit09_not_upper {c : Char} (h : isDigit09 c = true) :
    isUpperAZ c = false := by
  simp [isDigit09] at h
  simp [isUpperAZ]
  omega

theorem isDigit09_ne_colon {c : Char} (h : isDigit09 c = true) : c ≠ ':' := by
  intro hc
  subst hc
  exact absurd h (by decide)

/-! ## A1-notation range strings

`append_to_gsheet` builds ranges like `f"A{start_row}:{chr(64+n)}{end_row}"`.
A range reference is syntactically valid A1 notation when it is two cell
references separated by a colon, each cell reference being a nonempty run
of uppercase column letters followed by a nonempty run of digits. -/

/-- Split a character list on the colon character (like `str.split(':')`). -/
def splitOnColon : List Char → List (List Char)
  | [] => [[]]
  | c :: rest =>
      let r := splitOnColon rest
      if c = ':' then [] :: r
      else
        match r with
        | [] => [[c]]
        | h :: t => (c :: h) :: t

/-- A cell token of A1 notation: uppercase letters then digits, both runs
nonempty. -/
def isA1Cell (cs : List Char) : Bool :=
  let letters := cs.takeWhile isUpperAZ
  let rest := cs.dropWhile isUpperAZ
  (!letters.isEmpty) && (!rest.isEmpty) && rest.all isDigit09

/-- A range token of A1 notation: two valid cells separated by one colon. -/
def isA1Range (cs : List Char) : Bool :=
  match splitOnColon cs with
  | [a, b] => isA1Cell a && isA1Cell b
  | _ => false

theorem splitOnColon_no_colon (cs : List Char) (h : ∀ c ∈ cs, c ≠ ':') :
    splitOnColon cs = [cs] := by
  induction cs with
  | nil => rfl
  | cons c rest ih =>
      have hc : c ≠ ':' := h c (by simp)
      have hr : splitOnColon rest = [rest] := ih (fun x hx => h x (by simp [hx]))
      simp [splitOnColon, hc, hr]

theorem splitOnColon_two (xs ys : List Char) (hx : ∀ c ∈ xs, c ≠ ':')
    (hy : ∀ c ∈ ys, c ≠ ':') :
    splitOnColon (xs ++ ':' :: ys) = [xs, ys] := by
  induction xs with
  | nil =>
      simp [splitOnColon, splitOnColon_no_colon ys hy]
  | cons x xs ih =>
      have hxne : x ≠ ':' := hx x (by simp)
      have hr := ih (fun c hc => hx c (by simp [hc]))
      have hstep : splitOnColon (x :: (xs ++ ':' :: ys)) =
          match splitOnColon (xs ++ ':' :: ys) with
          | [] => [[x]]
          | h :: t => (x :: h) :: t := by
        simp [splitOnColon, hxne]
      rw [List.cons_append, hstep, hr]

/-! ## compare_models.py: append_to_gsheet range arithmetic (email_processor.py
shares the helpers above)

`append_to_gsheet` (email_processor.py) computes the end column of its
A1-notation write range as `chr(64 + n)` where `n` is the number of columns
written. -/

/-- The end-column character `chr(64 + n)` computed by `append_to_gsheet`. -/
def endColChr (n : Nat) : Char := Char.ofNat (64 + n)

/-- The column number denoted by a single uppercase column letter in A1
notation (`A` is column 1). -/
def a1ColNumber (c : Char) : Nat := c.toNat - 64

/-- The characters of the range string `f"A{startRow}:{chr(64+nCols)}{endRow}"`
built by `append_to_gsheet`.  The empty-sheet branch is the instance
`startRow = 1`, `endRow = len(df) + 1`; the append branch is
`startRow = existing + 1`, `endRow = startRow + len(df) - 1`. -/
def rangeChars (startRow nCols endRow : Nat) : List Char :=
  'A' :: natDecimalChars startRow ++ ':' :: endColChr nCols :: natDecimalChars endRow

theorem endColChr_toNat_of_le (n : Nat) (h : n ≤ 26) :
    (endColChr n).toNat = 64 + n := by
  have hv : (64 + n).isValidChar := by
    constructor
    omega
  simp [endColChr, char_ofNat_toNat, hv]

theorem endColChr_toNat_of_gt (n : Nat) (h : 26 < n) :
    (endColChr n).toNat = 0 ∨ 90 < (endColChr n).toNat := by
  by_cases hv : (64 + n).isValidChar
  · right
    simp [endColChr, char_ofNat_toNat, hv]
    omega
  · left
    simp [endColChr, char_ofNat_toNat, hv]

theorem isA1Cell_letter_digits (c : Char) (hc : isUpperAZ c = true) (ds : List Char)
    (hne : ds ≠ []) (hdig : ∀ d ∈ ds, isDigit09 d = true) :
    isA1Cell (c :: ds) = true := by
  obtain ⟨d, ds', rfl⟩ := List.exists_cons_of_ne_nil hne
  have hd : isDigit09 d = true := hdig d (by simp)
  have hdu : isUpperAZ d = false := isDigit09_not_upper hd
  simp [isA1Cell, List.takeWhile_cons, List.dropWhile_cons, hc, hdu]
  exact ⟨hd, fun a ha => hdig a (by simp [ha])⟩

theorem isA1Cell_head_not_letter (c : Char) (hc : isUpperAZ c = false)
    (ds : List Char) : isA1Cell (c :: ds) = false := by
  simp [isA1Cell, List.takeWhile_cons, hc]

theorem splitOnColon_rangeChars (startRow nCols endRow : Nat)
    (hcol : endColChr nCols ≠ ':') :
    splitOnColon (rangeChars startRow nCols endRow) =
      ['A' :: natDecimalChars startRow, endColChr nCols :: natDecimalChars endRow] := by
  have hx : ∀ c ∈ 'A' :: natDecimalChars startRow, c ≠ ':' := by
    intro c hc
    rcases List.mem_cons.mp hc with h | h
    · subst h
      decide
    · exact isDigit09_ne_colon ((natDecimalChars_digits startRow).1 c h)
  have hy : ∀ c ∈ endColChr nCols :: natDecimalChars endRow, c ≠ ':' := by
    intro c hc
    rcases List.mem_cons.mp hc with h | h
    · subst h
      exact hcol
    · exact isDigit09_ne_colon ((natDecimalChars_digits endRow).1 c h)
  have := splitOnColon_two ('A' :: natDecimalChars startRow)
      (endColChr nCols :: natDecimalChars endRow) hx hy
  simpa [rangeChars] using this

/-! ## compare_models.py: find_model_path -/

/-- A file under the dbt models directory, as enumerated by
`models_dir.rglob`: `path` is its full path, `base` its filename. -/
structure ModelFile where
  path : String
  base : String
deriving Repr, DecidableEq

/-- Outcome of `find_model_path`: the source prints a distinct message and
returns `None` in the no-project-root, zero-match and multiple-match
branches; the constructors record which branch was taken. -/
inductive FindResult where
  | noProjectRoot : FindResult
  | found : String → FindResult
  | notFound : FindResult
  | ambiguous : List String → FindResult
deriving Repr, DecidableEq

/-- `str.endswith` / suffix test, implemented structurally over the
character list: `s` ends with `suffix` when its final characters are
exactly `suffix`. -/
def strEndsWith (s suffix : String) : Bool :=
  decide (s.toList.drop (s.toList.length - suffix.toList.length) = suffix.toList)

/-- The filename filter of `models_dir.rglob(f"*{model_name}.sql")`: the
glob star matches any (possibly empty) run of characters, so a file
matches exactly when its name ends with `model_name + ".sql"`. -/
def globMatches (name : String) (f : ModelFile) : Bool :=
  strEndsWith f.base (name ++ ".sql")

/-- `Path(model_name).stem`: the final path component without its last
suffix.  Only applied when `model_name` ends with `".sql"`. -/
def pathStem (s : String) : String :=
  ((s.splitOn "/").getLastD "").dropRight 4

/-- Shallow embedding of `find_model_path` (compare_models.py).
`projectRootFound` states whether an ancestor holds `dbt_project.yml`,
`pathExists` whether a literal path argument exists on disk, and `files`
is the recursive listing of the models directory. -/
def find_model_path (projectRootFound : Bool) (pathExists : String → Bool)
    (files : List ModelFile) (model_name : String) : FindResult :=
  if projectRootFound = false then FindResult.noProjectRoot
  else if strEndsWith model_name ".sql" && pathExists model_name then
    FindResult.found model_name
  else
    let name := if strEndsWith model_name ".sql" then pathStem model_name else model_name
    let hits := files.filter (globMatches name)
    if hits.isEmpty then FindResult.notFound
    else if hits.length > 1 then
      FindResult.ambiguous (hits.map (fun m => m.path))
    else FindResult.found ((hits.headD (ModelFile.mk "" "")).path)

/-! ## compare_models.py: get_main_branch_content -/

/-- Python exception values relevant to the embedded functions. -/
inductive PyExc where
  | nameError : String → PyExc
  | attributeError : String → PyExc
  | calledProcessError : PyExc
deriving Repr, DecidableEq

/-- Outcome of one `subprocess.run(..., capture_output=True, text=True)`
call: exit 0 with stdout, a non-zero exit (raises CalledProcessError when
check=True, carrying `stderr` as a str because of text mode), or an
exception thrown while launching the process. -/
inductive SubprocResult where
  | ok : String → SubprocResult
  | nonzero : String → SubprocResult
  | raiseOther : String → SubprocResult
deriving Repr, DecidableEq

/-- Outcomes of the two git invocations inside `get_main_branch_content`. -/
structure GitEnv where
  revParse : SubprocResult
  gitShow : SubprocResult
deriving Repr, DecidableEq

/-- Shallow embedding of `get_main_branch_content` (compare_models.py).
`Except.ok` is a normal return (`Except.ok none` is `return None`);
`Except.error` is an exception escaping to the caller.  Python rules
modelled: an exception raised inside an `except` clause is not caught by a
sibling `except` clause of the same `try`; `relative_path` is unbound in
the CalledProcessError handler when `rev-parse` itself failed
(UnboundLocalError, a NameError subclass); `e.stderr` is already `str`
under text mode, so `e.stderr.decode()` raises AttributeError. -/
def get_main_branch_content (env : GitEnv) : Except PyExc (Option String) :=
  match env.revParse with
  | SubprocResult.raiseOther _ => Except.ok none
  | SubprocResult.nonzero _ => Except.error (PyExc.nameError "relative_path")
  | SubprocResult.ok _ =>
      match env.gitShow with
      | SubprocResult.ok out => Except.ok (some out)
      | SubprocResult.nonzero _ => Except.error (PyExc.attributeError "decode")
      | SubprocResult.raiseOther _ => Except.ok none

/-! ## compare_models.py: column partitioning encoded in the comparison
template written by create_comparison_macro -/

/-- A database column as returned by `adapter.get_columns_in_relation`. -/
structure DbtColumn where
  name : String
  dtype : String
deriving Repr, DecidableEq

/-- The case-insensitive name test `col1.name|lower == col2.name|lower`
used throughout the generated compare_versions template. -/
def lowerNameEq (a b : DbtColumn) : Bool := a.name.toLower == b.name.toLower

/-- `common_cols` as computed by the template that `create_comparison_macro`
writes: for each `col1` of side 1, `col1.name` is appended once for every
column of side 2 whose lowercased name matches. -/
def commonColsOfTemplate (cols1 cols2 : List DbtColumn) : List String :=
  cols1.flatMap (fun c1 =>
    cols2.filterMap (fun c2 => if lowerNameEq c1 c2 then some c1.name else none))

/-- `version1_only_cols` of the template: names of side-1 columns with no
case-insensitive match on side 2 (reported as main-branch-only). -/
def version1OnlyCols (cols1 cols2 : List DbtColumn) : List String :=
  (cols1.filter (fun c1 => !(cols2.any (fun c2 => lowerNameEq c1 c2)))).map
    (fun c => c.name)

/-- `version2_only_cols` of the template: names of side-2 columns with no
case-insensitive match on side 1 (reported as current-branch-only). -/
def version2OnlyCols (cols1 cols2 : List DbtColumn) : List String :=
  (cols2.filter (fun c2 => !(cols1.any (fun c1 => lowerNameEq c2 c1)))).map
    (fun c => c.name)

theorem mem_map_toLower_commonCols (c1 c2 : List DbtColumn) (s : String) :
    s ∈ (commonColsOfTemplate c1 c2).map String.toLower ↔
      ∃ a, a ∈ c1 ∧ ∃ b, b ∈ c2 ∧ a.name.toLower = b.name.toLower ∧
        s = a.name.toLower := by
  simp only [commonColsOfTemplate, List.mem_map, List.mem_flatMap, List.mem_filterMap]
  constructor
  · rintro ⟨nm, ⟨a, ha, b, hb, hif⟩, rfl⟩
    by_cases hl : lowerNameEq a b
    · simp only [hl, if_true, Option.some.injEq] at hif
      subst hif
      exact ⟨a, ha, b, hb, by simpa [lowerNameEq] using hl, rfl⟩
    · simp [hl] at hif
  · rintro ⟨a, ha, b, hb, heq, rfl⟩
    exact ⟨a.name, ⟨a, ha, b, hb, by simp [lowerNameEq, heq]⟩, rfl⟩

/-! ## email_processor.py: tabular record sets -/

/-- A parsed spreadsheet (pandas DataFrame): column labels and rows of
cells; `none` models NaN / a missing value. -/
structure Df where
  cols : List String
  rows : List (List (Option String))
deriving Repr, DecidableEq

/-- `df.rename(columns=mapping)`: each column label is replaced by its
image under the mapping when present, otherwise kept. -/
def renameCols (mapping : List (String × String)) (cols : List String) :
    List String :=
  cols.map (fun c =>
    match alistLookup mapping c with
    | some c2 => c2
    | none => c)

/-- Required columns for Leave of Absence files (process_loa_file). -/
def loaRequiredColumns : List String :=
  ["Employee ID", "Effective Date", "First Day of Leave"]

/-- Required columns for Time Off files (process_to_file). -/
def toRequiredColumns : List String :=
  ["Employee ID", "Time Off Date", "Duration"]

/-- `[col for col in required_columns if col not in df.columns]`. -/
def missingColumns (required cols : List String) : List String :=
  required.filter (fun c => !(cols.contains c))

/-- The message of the ValueError raised on missing columns. -/
def schemaErrorMessage (missing : List String) : String :=
  "Missing required columns: " ++ String.intercalate ", " missing

/-- Append a `timestamp_unix` column holding the capture time when absent. -/
def addTimestampUnix (now : Nat) (df : Df) : Df :=
  if df.cols.contains "timestamp_unix" then df
  else { cols := df.cols ++ ["timestamp_unix"]
         rows := df.rows.map (fun r => r ++ [some (String.mk (natDecimalChars now))]) }

/-- Columns treated as dates when blank-filling: the label contains
`"Date"` or `"Day"`. -/
def isDateCol (c : String) : Bool :=
  decide (List.IsInfix "Date".toList c.toList) ||
    decide (List.IsInfix "Day".toList c.toList)

/-- Replace NaN with the empty string in every date-named column
(process_loa_file data cleaning). -/
def fillDateBlanks (df : Df) : Df :=
  { cols := df.cols
    rows := df.rows.map (fun r =>
      (df.cols.zip r).map (fun p =>
        if isDateCol p.1 then
          match p.2 with
          | none => some ""
          | v => v
        else p.2)) }

/-- Ensure a column exists, defaulting every row to a fixed value
(process_to_file defaulting). -/
def ensureColumn (name dflt : String) (df : Df) : Df :=
  if df.cols.contains name then df
  else { cols := df.cols ++ [name]
         rows := df.rows.map (fun r => r ++ [some dflt]) }

/-- Shallow embedding of `process_loa_file`: rename columns per config,
validate the required set (the raised ValueError is `Except.error`
carrying the computed missing-column list), then add the capture
timestamp and blank-fill date columns. -/
def process_loa_file (mapping : List (String × String)) (now : Nat) (df0 : Df) :
    Except (List String) Df :=
  let df : Df := { cols := renameCols mapping df0.cols, rows := df0.rows }
  let missing := missingColumns loaRequiredColumns df.cols
  if missing.isEmpty then Except.ok (fillDateBlanks (addTimestampUnix now df))
  else Except.error missing

/-- Shallow embedding of `process_to_file`: rename, validate, add capture
timestamp, then default the `Status` and `Unit of Time` columns. -/
def process_to_file (mapping : List (String × String)) (now : Nat) (df0 : Df) :
    Except (List String) Df :=
  let df : Df := { cols := renameCols mapping df0.cols, rows := df0.rows }
  let missing := missingColumns toRequiredColumns df.cols
  if missing.isEmpty then
    let df1 := addTimestampUnix now df
    let df2 := ensureColumn "Status" "Approved" df1
    let df3 :=
      if !(df2.cols.contains "Unit of Time") && df2.cols.contains "Duration" then
        ensureColumn "Unit of Time" "Hours" df2
      else df2
    Except.ok df3
  else Except.error missing

/-! ## email_processor.py: append_to_gsheet -/

/-- One `worksheet.update(range, values)` call: a 1-based start row and
the written rows of a single contiguous rectangular range. -/
structure GsheetWrite where
  startRow : Nat
  values : List (List (Option String))
  range : List Char
deriving Repr, DecidableEq

/-- Everything `append_to_gsheet` sends to the worksheet: the optional
in-place header-row rewrite (`worksheet.update('A1', [new_headers])`)
and the single data write. -/
structure AppendPlan where
  headerRewrite : Option (List (Option String))
  write : GsheetWrite
deriving Repr, DecidableEq

/-- Cell of the aligned dataframe at header `h` for source row `r`:
the value of `df[h]` when the column exists, else NaN. -/
def alignedCell (dfCols : List String) (r : List (Option String)) (h : String) :
    Option String :=
  match dfCols.indexOf? h with
  | some i => r.getD i none
  | none => none

/-- Shallow embedding of `append_to_gsheet` (email_processor.py); row and
sheet bookkeeping only, with `existing` standing for
`worksheet.get_all_values()`. -/
def append_to_gsheet (existing : List (List String)) (df : Df) : AppendPlan :=
  if existing.isEmpty then
    { headerRewrite := none
      write :=
        { startRow := 1
          values := df.cols.map (fun c => some c) :: df.rows
          range := rangeChars 1 df.cols.length (df.rows.length + 1) } }
  else
    let headers := existing.headD []
    let missing := df.cols.filter (fun c => !(headers.contains c))
    let newHeaders := headers ++ missing
    let headerRewrite :=
      if missing.isEmpty then none else some (newHeaders.map (fun c => some c))
    let headers2 := if missing.isEmpty then headers else newHeaders
    let startRow := existing.length + 1
    { headerRewrite := headerRewrite
      write :=
        { startRow := startRow
          values := df.rows.map (fun r => headers2.map (alignedCell df.cols r))
          range := rangeChars startRow headers2.length (startRow + df.rows.length - 1) } }

/-- The 1-based row indices a `worksheet.update` call covers. -/
def writtenRows (w : GsheetWrite) : List Nat := List.range' w.startRow w.values.length

/-! ## email_processor.py: archive_file -/

/-- Names bound at module level of email_processor.py and visible inside
`archive_file` (its top-level imports plus module globals).
`MediaFileUpload` is absent: it is imported inside `_init_archive`, which
binds it only in that function's local scope. -/
def emailProcessorGlobalNames : List String :=
  ["os", "imaplib", "email", "decode_header", "tempfile", "pd", "np",
   "logging", "yaml", "time", "json", "re", "datetime", "Path", "shutil",
   "gspread", "ServiceAccountCredentials", "set_with_dataframe", "logger",
   "WorkdayEmailProcessor"]

/-- Local-mode branch of `archive_file`: choose the archived name (the
timestamp-qualified `f"{timestamp}_{filename}"` when a file with the plain
name already exists), then `shutil.copy2`, overwriting whatever file bears
the chosen name.  Returns the updated destination directory and the
chosen name.  (The JSON metadata sidecar written beside it under a
`.json` name is elided.) -/
def archive_file_local (store : List (String × String))
    (filename content timestamp : String) : List (String × String) × String :=
  let archived :=
    if (alistLookup store filename).isSome then timestamp ++ "_" ++ filename
    else filename
  (storeWrite store archived content, archived)

/-- Drive-mode branch of `archive_file`, up to its point of failure: the
collision-check listing runs (a read), the archived name is chosen, and
then `MediaFileUpload(...)` is evaluated, which resolves the name in the
enclosing scopes (`scope`); when absent the expression raises NameError
before any upload request is issued. -/
def archive_file_drive (scope : List String) (existingDrive : List String)
    (filename timestamp : String) : Except PyExc (List String × String) :=
  let archived :=
    if existingDrive.contains filename then timestamp ++ "_" ++ filename
    else filename
  if scope.contains "MediaFileUpload" then
    Except.ok (archived :: existingDrive, archived)
  else Except.error (PyExc.nameError "MediaFileUpload")

/-- `archive_file` in drive mode together with its surrounding
`except Exception: ... return None` handler: a raised exception becomes a
`None` return and the Drive folder contents are unchanged. -/
def archive_file_drive_caught (existingDrive : List String)
    (filename timestamp : String) : Option String × List String :=
  match archive_file_drive emailProcessorGlobalNames existingDrive filename
      timestamp with
  | Except.ok (drive2, link) => (some link, drive2)
  | Except.error _ => (none, existingDrive)

/-! ## compare_models.py: the run orchestrator (main)

`main` is embedded as a deterministic function of an environment that
records the outcome of every fallible external call.  The filesystem state
tracked is the set of files the run generates: the two top-level temporary
materializations, the comparison template, and per downstream model its
two temporary materializations (the downstream template reuses the same
fixed path `macros/compare_versions.sql`). -/

/-- Path of the temporary materialization `create_temp_model` writes for
original model `orig` and suffix tag `suffix`. -/
def tempModelFile (orig suffix : String) : String :=
  "models/analysis/temp_" ++ orig ++ "_" ++ suffix ++ ".sql"

/-- Fixed path of the generated comparison template
(`macros/compare_versions.sql`), overwritten on each generation. -/
def comparisonTemplateFile : String := "macros/compare_versions.sql"

/-- Remove a tracked path from the filesystem if it was recorded as
created and still exists (`if path and path.exists(): os.remove(path)`). -/
def removePath (fs : List String) : Option String → List String
  | some f => fs.filter (fun g => g ≠ f)
  | none => fs

/-- Record a freshly written file. -/
def fsAdd (fs : List String) (f : String) : List String :=
  if fs.contains f then fs else f :: fs

/-- How the run terminates: normal fall-through, `sys.exit(1)`, or an
exception escaping `main` (after the outer `finally`). -/
inductive ExitKind where
  | success : ExitKind
  | exitCode1 : ExitKind
  | uncaught : PyExc → ExitKind
deriving Repr, DecidableEq

/-- Python truthiness of the value `get_main_branch_content` returns:
`None` and the empty string are falsy (`if not main_downstream_content`). -/
def pyTruthy : Option String → Bool
  | none => false
  | some s => !(decide (s = ""))

/-- Outcomes of the per-downstream-model external calls.  The baseline
fetch for a downstream model is the same `get_main_branch_content` call
as at top level, so its outcome is carried as the `GitEnv` of its two git
invocations: it can return content, return `None`, or raise (the
model-absent-from-main case makes `git show` exit non-zero and the
handler itself raise, per `get_main_branch_content`). -/
structure DownOutcome where
  findOk : Bool
  baselineGit : GitEnv
  createMainOk : Bool
  createCurrentOk : Bool
  runMainOk : Bool
  runCurrentOk : Bool
  compareOk : Bool
deriving Repr, DecidableEq

/-- Outcomes of the top-level external calls plus the downstream list. -/
structure RunEnv where
  modelName : String
  findOk : Bool
  baselineOk : Bool
  createMainOk : Bool
  createCurrentOk : Bool
  checkoutOk : Bool
  runMainOk : Bool
  runCurrentOk : Bool
  compareOk : Bool
  includeDownstream : Bool
  downstream : List (String × DownOutcome)
deriving Repr, DecidableEq

/-- State after processing the downstream-model loop. -/
structure DownState where
  fs : List String
  attempted : List String
  compared : List String
  exc : Option PyExc
deriving Repr, DecidableEq

/-- The downstream loop of `main`.  A not-found model, a baseline fetch
returning a falsy value, or a temp-model creation failure `continue` to
the next model (creating no cleanup obligation for files already made); a
raising baseline fetch propagates immediately, ending the loop before the
model is attempted; a created pair reaches an inner `try` whose `finally`
removes the three generated files; a non-zero dbt invocation inside the
`try` raises CalledProcessError, which (the `try` having no `except`)
propagates after the `finally`, ending the loop. -/
def processDownstream (fs : List String) :
    List (String × DownOutcome) → DownState
  | [] => { fs := fs, attempted := [], compared := [], exc := none }
  | (m, d) :: rest =>
    if !d.findOk then processDownstream fs rest
    else
      match get_main_branch_content d.baselineGit with
      | Except.error e => { fs := fs, attempted := [], compared := [], exc := some e }
      | Except.ok mainContent =>
      if !(pyTruthy mainContent) then processDownstream fs rest
      else
      let mainDownPath : Option String :=
        if d.createMainOk then some (tempModelFile m ("main_down_" ++ m)) else none
      let fs1 := match mainDownPath with | some f => fsAdd fs f | none => fs
      let currentDownPath : Option String :=
        if d.createCurrentOk then some (tempModelFile m ("current_down_" ++ m))
        else none
      let fs2 := match currentDownPath with | some f => fsAdd fs1 f | none => fs1
      if mainDownPath.isNone || currentDownPath.isNone then
        processDownstream fs2 rest
      else
        let fs3 := fsAdd fs2 comparisonTemplateFile
        let cleaned := removePath (removePath (removePath fs3 mainDownPath)
          currentDownPath) (some comparisonTemplateFile)
        if !d.runMainOk then
          { fs := cleaned, attempted := [m], compared := [],
            exc := some PyExc.calledProcessError }
        else if !d.runCurrentOk then
          { fs := cleaned, attempted := [m], compared := [],
            exc := some PyExc.calledProcessError }
        else if !d.compareOk then
          { fs := cleaned, attempted := [m], compared := [],
            exc := some PyExc.calledProcessError }
        else
          let r := processDownstream cleaned rest
          { r with attempted := m :: r.attempted, compared := m :: r.compared }

/-- Result of one run of `main`. -/
structure RunResult where
  fs : List String
  attempted : List String
  compared : List String
  exit : ExitKind
deriving Repr, DecidableEq

/-- The outer `finally` of `main`: remove the tracked top-level
materializations and template. -/
def finalCleanup (fs : List String) (mainPath currentPath templatePath :
    Option String) : List String :=
  removePath (removePath (removePath fs mainPath) currentPath) templatePath

/-- Shallow embedding of `main` (compare_models.py): locate the model,
fetch the baseline, create both temporary materializations, write the
comparison template, check out the baseline models tree, run both builds,
run the comparison, then optionally the downstream loop; the outer
`finally` always runs. -/
def runMain (env : RunEnv) : RunResult :=
  if !env.findOk then
    { fs := [], attempted := [], compared := [], exit := ExitKind.exitCode1 }
  else if !env.baselineOk then
    { fs := [], attempted := [], compared := [], exit := ExitKind.exitCode1 }
  else
    let mainPath : Option String :=
      if env.createMainOk then some (tempModelFile env.modelName "main") else none
    let fs0 := match mainPath with | some f => fsAdd [] f | none => []
    let currentPath : Option String :=
      if env.createCurrentOk then some (tempModelFile env.modelName "current")
      else none
    let fs1 := match currentPath with | some f => fsAdd fs0 f | none => fs0
    if mainPath.isNone || currentPath.isNone then
      { fs := finalCleanup fs1 mainPath currentPath none,
        attempted := [], compared := [], exit := ExitKind.exitCode1 }
    else
      let templatePath : Option String := some comparisonTemplateFile
      let fs2 := fsAdd fs1 comparisonTemplateFile
      if !env.checkoutOk then
        { fs := finalCleanup fs2 mainPath currentPath templatePath,
          attempted := [], compared := [], exit := ExitKind.exitCode1 }
      else if !env.runMainOk then
        { fs := finalCleanup fs2 mainPath currentPath templatePath,
          attempted := [], compared := [], exit := ExitKind.exitCode1 }
      else if !env.runCurrentOk then
        { fs := finalCleanup fs2 mainPath currentPath templatePath,
          attempted := [], compared := [], exit := ExitKind.exitCode1 }
      else if !env.compareOk then
        { fs := finalCleanup fs2 mainPath currentPath templatePath,
          attempted := [], compared := [], exit := ExitKind.exitCode1 }
      else if env.includeDownstream then
        let dr := processDownstream fs2 env.downstream
        { fs := finalCleanup dr.fs mainPath currentPath templatePath,
          attempted := dr.attempted, compared := dr.compared,
          exit := match dr.exc with
            | some e => ExitKind.uncaught e
            | none => ExitKind.success }
      else
        { fs := finalCleanup fs2 mainPath currentPath templatePath,
          attempted := [], compared := [], exit := ExitKind.success }

/-! ## Claim theorems -/

/-- Claim C10: `append_to_gsheet` computes the end column of its A1 write
range as the single character `chr(64 + n)` for `n` columns written.  For
every column count between 1 and 26 this character is the correct column
letter (an uppercase letter denoting column `n`) and the produced range
string is valid A1 notation; for every column count above 26 the
character is not an uppercase letter and the produced range string is not
valid A1 notation. -/
theorem end_col_chr_spec (n startRow endRow : Nat) :
    (1 ≤ n → n ≤ 26 →
      isUpperAZ (endColChr n) = true ∧ a1ColNumber (endColChr n) = n ∧
      isA1Range (rangeChars startRow n endRow) = true) ∧
    (26 < n →
      isUpperAZ (endColChr n) = false ∧
      isA1Range (rangeChars startRow n endRow) = false) := by
  constructor
  · intro h1 h26
    have ht : (endColChr n).toNat = 64 + n := endColChr_toNat_of_le n h26
    have hu : isUpperAZ (endColChr n) = true := by
      simp [isUpperAZ, ht]
      omega
    have hcol : endColChr n ≠ ':' := by
      intro hc
      rw [hc] at ht
      have h58 : (58 : Nat) = 64 + n := ht
      omega
    refine ⟨hu, ?_, ?_⟩
    · simp [a1ColNumber, ht]
    · rw [isA1Range, splitOnColon_rangeChars _ _ _ hcol]
      have c1 := isA1Cell_letter_digits 'A' (by decide) (natDecimalChars startRow)
        (natDecimalChars_digits startRow).2 (natDecimalChars_digits startRow).1
      have c2 := isA1Cell_letter_digits (endColChr n) hu (natDecimalChars endRow)
        (natDecimalChars_digits endRow).2 (natDecimalChars_digits endRow).1
      simp [c1, c2]
  · intro h26
    have ht := endColChr_toNat_of_gt n h26
    have hu : isUpperAZ (endColChr n) = false := by
      rcases ht with h | h
      · simp [isUpperAZ, h]
      · simp [isUpperAZ, h]
    have hcol : endColChr n ≠ ':' := by
      intro hc
      rw [hc] at ht
      have h58 : (58 : Nat) = 0 ∨ 90 < (58 : Nat) := ht
      omega
    refine ⟨hu, ?_⟩
    rw [isA1Range, splitOnColon_rangeChars _ _ _ hcol]
    simp [isA1Cell_head_not_letter _ hu]

/-- Witness for C10 at concrete inputs: 3 columns give letter `C` and a
valid range; 30 columns give a non-letter and an invalid range. -/
theorem end_col_chr_spec_witness :
    (isUpperAZ (endColChr 3) = true ∧ a1ColNumber (endColChr 3) = 3 ∧
      isA1Range (rangeChars 2 3 5) = true) ∧
    (isUpperAZ (endColChr 30) = false ∧ isA1Range (rangeChars 2 30 5) = false) :=
  ⟨(end_col_chr_spec 3 2 5).1 (by decide) (by decide),
   (end_col_chr_spec 30 2 5).2 (by decide)⟩

/-- Claim C3: for a model name (search form, not a literal `.sql` path),
`find_model_path` returns the unique matching file when exactly one file
under the models directory matches, reports not-found when none matches,
and reports ambiguity listing every candidate path when several match. -/
theorem find_model_path_trichotomy (pathExists : String → Bool)
    (files : List ModelFile) (name : String)
    (hsql : strEndsWith name ".sql" = false) :
    ((files.filter (globMatches name)).length = 0 →
      find_model_path true pathExists files name = FindResult.notFound) ∧
    (∀ m, files.filter (globMatches name) = [m] →
      find_model_path true pathExists files name = FindResult.found m.path) ∧
    (1 < (files.filter (globMatches name)).length →
      find_model_path true pathExists files name =
        FindResult.ambiguous ((files.filter (globMatches name)).map
          (fun m => m.path))) := by
  refine ⟨?_, ?_, ?_⟩
  · intro h0
    have hnil : files.filter (globMatches name) = [] := List.length_eq_zero.mp h0
    simp [find_model_path, hsql, hnil]
  · intro m hm
    simp [find_model_path, hsql, hm]
  · intro h2
    have hne : (files.filter (globMatches name)).isEmpty = false := by
      cases hfl : files.filter (globMatches name) with
      | nil =>
          rw [hfl] at h2
          simp at h2
      | cons a l => simp
    simp [find_model_path, hsql, hne, h2]

/-- Witness for C3 at concrete inputs: a unique match is returned, no
match reports not-found, a double match reports both candidates. -/
theorem find_model_path_trichotomy_witness :
    find_model_path true (fun _ => false)
        [ModelFile.mk "models/marts/orders.sql" "orders.sql",
         ModelFile.mk "models/marts/customers.sql" "customers.sql"]
        "orders" =
      FindResult.found "models/marts/orders.sql" ∧
    find_model_path true (fun _ => false)
        [ModelFile.mk "models/marts/orders.sql" "orders.sql"] "payments" =
      FindResult.notFound ∧
    find_model_path true (fun _ => false)
        [ModelFile.mk "models/marts/orders.sql" "orders.sql",
         ModelFile.mk "models/staging/stg_orders.sql" "stg_orders.sql"]
        "orders" =
      FindResult.ambiguous ["models/marts/orders.sql",
        "models/staging/stg_orders.sql"] := by
  refine ⟨?_, ?_, ?_⟩
  · exact (find_model_path_trichotomy _ _ _ (by decide)).2.1
      (ModelFile.mk "models/marts/orders.sql" "orders.sql") (by decide)
  · exact (find_model_path_trichotomy _ _ _ (by decide)).1 (by decide)
  · exact (find_model_path_trichotomy _ _ _ (by decide)).2.2 (by decide)

/-- Counterexample for C9: when `git show` exits non-zero (here with
stderr already a str), `get_main_branch_content` does not return `None` —
the CalledProcessError handler itself raises AttributeError on
`e.stderr.decode()`, and that exception propagates to the caller. -/
theorem baseline_fetch_raises_cex :
    get_main_branch_content
        (GitEnv.mk (SubprocResult.ok "/repo")
          (SubprocResult.nonzero "fatal: path not in main")) =
      Except.error (PyExc.attributeError "decode") := rfl

/-- Claim C9 (amended): `get_main_branch_content` returns the content on
success, and returns `None` when an exception other than
CalledProcessError arises in the try body; but when either git invocation
exits non-zero, the CalledProcessError handler itself raises (NameError
on the unbound `relative_path` for `rev-parse`, AttributeError on
`str.decode` for `git show`) and the exception propagates to the caller,
because an exception raised inside an `except` clause is not caught by a
sibling `except` clause of the same `try`. -/
theorem baseline_fetch_amended (env : GitEnv) :
    (∀ r out, env.revParse = SubprocResult.ok r →
      env.gitShow = SubprocResult.ok out →
      get_main_branch_content env = Except.ok (some out)) ∧
    (∀ e, env.revParse = SubprocResult.nonzero e →
      get_main_branch_content env =
        Except.error (PyExc.nameError "relative_path")) ∧
    (∀ r e, env.revParse = SubprocResult.ok r →
      env.gitShow = SubprocResult.nonzero e →
      get_main_branch_content env =
        Except.error (PyExc.attributeError "decode")) ∧
    (∀ m, env.revParse = SubprocResult.raiseOther m →
      get_main_branch_content env = Except.ok none) ∧
    (∀ r m, env.revParse = SubprocResult.ok r →
      env.gitShow = SubprocResult.raiseOther m →
      get_main_branch_content env = Except.ok none) := by
  obtain ⟨rp, gs⟩ := env
  refine ⟨?_, ?_, ?_, ?_, ?_⟩
  · intro r out h1 h2
    cases h1
    cases h2
    rfl
  · intro e h1
    cases h1
    rfl
  · intro r e h1 h2
    cases h1
    cases h2
    rfl
  · intro m h1
    cases h1
    rfl
  · intro r m h1 h2
    cases h1
    cases h2
    rfl

/-- Witness for C9 (amended) at a concrete input: a successful pair of
git calls returns the baseline content. -/
theorem baseline_fetch_amended_witness :
    get_main_branch_content
        (GitEnv.mk (SubprocResult.ok "/repo")
          (SubprocResult.ok "select 1 as id")) =
      Except.ok (some "select 1 as id") :=
  (baseline_fetch_amended _).1 "/repo" "select 1 as id" rfl rfl

/-- Claim C7: swapping the two model names handed to the comparison
template swaps which columns are reported as main-branch-only versus
current-branch-only (the two only-lists exchange exactly), while the
common-column set — columns matched case-insensitively by name — is
unchanged (the same lowercased names are common on both orders). -/
theorem compare_template_swap (cols1 cols2 : List DbtColumn) :
    version1OnlyCols cols2 cols1 = version2OnlyCols cols1 cols2 ∧
    version2OnlyCols cols2 cols1 = version1OnlyCols cols1 cols2 ∧
    ∀ s, s ∈ (commonColsOfTemplate cols1 cols2).map String.toLower ↔
      s ∈ (commonColsOfTemplate cols2 cols1).map String.toLower := by
  refine ⟨rfl, rfl, ?_⟩
  intro s
  rw [mem_map_toLower_commonCols, mem_map_toLower_commonCols]
  constructor
  · rintro ⟨a, ha, b, hb, heq, rfl⟩
    exact ⟨b, hb, a, ha, heq.symm, heq⟩
  · rintro ⟨a, ha, b, hb, heq, rfl⟩
    exact ⟨b, hb, a, ha, heq.symm, heq⟩

/-- Claim C8: with archive method `google_drive`, `archive_file` always
returns None and uploads nothing.  `MediaFileUpload` is bound only in
`_init_archive`'s local scope, so resolving it inside `archive_file`
against the enclosing (module) scope raises NameError before any upload
request is issued, and the surrounding handler converts the exception to
a `None` return, leaving the Drive folder unchanged. -/
theorem archive_drive_name_error (existingDrive : List String)
    (filename timestamp : String) :
    archive_file_drive_caught existingDrive filename timestamp =
      (none, existingDrive) ∧
    archive_file_drive emailProcessorGlobalNames existingDrive filename
        timestamp =
      Except.error (PyExc.nameError "MediaFileUpload") := by
  have hscope : "MediaFileUpload" ∉ emailProcessorGlobalNames := by
    decide
  constructor
  · simp [archive_file_drive_caught, archive_file_drive, hscope]
  · simp [archive_file_drive, hscope]

/-- Counterexample for C6: archiving `f.xlsx` when both `f.xlsx` and the
timestamp-qualified `20250101_120000_f.xlsx` already exist at the
destination (a repeat archive falling in the same second) writes to the
already-occupied timestamp-qualified name: a previously archived file is
overwritten, its content replaced. -/
theorem archive_collision_cex :
    (archive_file_local
        [("f.xlsx", "old-first"), ("20250101_120000_f.xlsx", "old-second")]
        "f.xlsx" "new-content" "20250101_120000").2 =
      "20250101_120000_f.xlsx" ∧
    alistLookup (archive_file_local
        [("f.xlsx", "old-first"), ("20250101_120000_f.xlsx", "old-second")]
        "f.xlsx" "new-content" "20250101_120000").1
        "20250101_120000_f.xlsx" = some "new-content" := by
  exact ⟨rfl, rfl⟩

/-- Claim C6 (amended): on a collision with the plain target name the new
archive copy is stored under the timestamp-qualified name
`f"{timestamp}_{filename}"`, which always differs from the original name,
so the file archived under the original name is never overwritten; and
provided no file already bears that timestamp-qualified name (the
collision check tests only the plain name), no previously archived file
at all is overwritten. -/
theorem archive_collision_amended (store : List (String × String))
    (filename content timestamp : String)
    (hcol : (alistLookup store filename).isSome = true) :
    (archive_file_local store filename content timestamp).2 =
      timestamp ++ "_" ++ filename ∧
    (archive_file_local store filename content timestamp).2 ≠ filename ∧
    alistLookup (archive_file_local store filename content timestamp).1
        filename = alistLookup store filename ∧
    (alistLookup store (timestamp ++ "_" ++ filename) = none →
      ∀ n, (alistLookup store n).isSome = true →
        alistLookup (archive_file_local store filename content timestamp).1 n =
          alistLookup store n) := by
  have hne : timestamp ++ "_" ++ filename ≠ filename := by
    intro h
    have hl := congrArg String.length h
    rw [String.length_append, String.length_append] at hl
    have h1 : ("_" : String).length = 1 := rfl
    omega
  have harch : (archive_file_local store filename content timestamp).2 =
      timestamp ++ "_" ++ filename := by
    simp [archive_file_local, hcol]
  have hstore : (archive_file_local store filename content timestamp).1 =
      storeWrite store (timestamp ++ "_" ++ filename) content := by
    simp [archive_file_local, hcol]
  refine ⟨harch, ?_, ?_, ?_⟩
  · rw [harch]
    exact hne
  · rw [hstore]
    exact alistLookup_storeWrite_ne store _ content filename (Ne.symm hne)
  · intro hnone n hn
    rw [hstore]
    by_cases hn2 : n = timestamp ++ "_" ++ filename
    · subst hn2
      rw [hnone] at hn
      simp at hn
    · exact alistLookup_storeWrite_ne store _ content n hn2

/-- Witness for C6 (amended) at a concrete input: a collision on
`f.xlsx` leaves the originally archived file intact. -/
theorem archive_collision_amended_witness :
    (archive_file_local [("f.xlsx", "old")] "f.xlsx" "new"
        "20250101_120000").2 = "20250101_120000_f.xlsx" ∧
    alistLookup (archive_file_local [("f.xlsx", "old")] "f.xlsx" "new"
        "20250101_120000").1 "f.xlsx" = alistLookup [("f.xlsx", "old")] "f.xlsx" :=
  ⟨(archive_collision_amended [("f.xlsx", "old")] "f.xlsx" "new"
      "20250101_120000" (by decide)).1,
   (archive_collision_amended [("f.xlsx", "old")] "f.xlsx" "new"
      "20250101_120000" (by decide)).2.2.1⟩

/-- Claim C2: for every spreadsheet whose columns, after the configured
rename mapping is applied, lack at least one required column for its
document kind, the normalizer fails with the SchemaError carrying exactly
the missing columns (the error value is precisely the list of
required-but-absent labels, for both the loa and the to kinds) and
returns no record set. -/
theorem process_files_schema_error (mapping : List (String × String))
    (now : Nat) (df0 : Df) :
    (missingColumns loaRequiredColumns (renameCols mapping df0.cols) ≠ [] →
      process_loa_file mapping now df0 =
        Except.error (missingColumns loaRequiredColumns
          (renameCols mapping df0.cols)) ∧
      ∀ c, c ∈ missingColumns loaRequiredColumns (renameCols mapping df0.cols) ↔
        (c ∈ loaRequiredColumns ∧ c ∉ renameCols mapping df0.cols)) ∧
    (missingColumns toRequiredColumns (renameCols mapping df0.cols) ≠ [] →
      process_to_file mapping now df0 =
        Except.error (missingColumns toRequiredColumns
          (renameCols mapping df0.cols)) ∧
      ∀ c, c ∈ missingColumns toRequiredColumns (renameCols mapping df0.cols) ↔
        (c ∈ toRequiredColumns ∧ c ∉ renameCols mapping df0.cols)) := by
  constructor
  · intro h
    have hemp : (missingColumns loaRequiredColumns
        (renameCols mapping df0.cols)).isEmpty = false := by
      cases hfl : missingColumns loaRequiredColumns (renameCols mapping df0.cols)
      · exact absurd hfl h
      · simp
    constructor
    · simp [process_loa_file, hemp]
    · intro c
      simp [missingColumns, List.mem_filter]
  · intro h
    have hemp : (missingColumns toRequiredColumns
        (renameCols mapping df0.cols)).isEmpty = false := by
      cases hfl : missingColumns toRequiredColumns (renameCols mapping df0.cols)
      · exact absurd hfl h
      · simp
    constructor
    · simp [process_to_file, hemp]
    · intro c
      simp [missingColumns, List.mem_filter]

/-- Witness for C2 at a concrete input: a file carrying only
`Employee ID` fails loa-normalization with exactly the two absent
required columns, and to-normalization likewise. -/
theorem process_files_schema_error_witness :
    process_loa_file [] 0 (Df.mk ["Employee ID"] []) =
      Except.error ["Effective Date", "First Day of Leave"] ∧
    process_to_file [] 0 (Df.mk ["Employee ID"] []) =
      Except.error ["Time Off Date", "Duration"] :=
  ⟨((process_files_schema_error [] 0 (Df.mk ["Employee ID"] [])).1
      (by decide)).1,
   ((process_files_schema_error [] 0 (Df.mk ["Employee ID"] [])).2
      (by decide)).1⟩

/-- Claim C1: on an empty worksheet `append_to_gsheet` writes the header
row followed by all data rows in one range starting at row 1; on a
non-empty worksheet it writes the incoming rows as one contiguous range
starting at row `existing_row_count + 1` — every row index it covers
exceeds the existing row count, so no existing row is overwritten, and
the only other write is the header extension, which covers row 1 alone
and keeps the existing header values as its prefix. -/
theorem append_to_gsheet_spec (existing : List (List String)) (df : Df) :
    (existing = [] →
      (append_to_gsheet existing df).write.startRow = 1 ∧
      (append_to_gsheet existing df).write.values =
        df.cols.map (fun c => some c) :: df.rows ∧
      (append_to_gsheet existing df).headerRewrite = none) ∧
    (existing ≠ [] →
      (append_to_gsheet existing df).write.startRow = existing.length + 1 ∧
      (append_to_gsheet existing df).write.values.length = df.rows.length ∧
      writtenRows (append_to_gsheet existing df).write =
        List.range' (existing.length + 1) df.rows.length ∧
      (∀ r ∈ writtenRows (append_to_gsheet existing df).write,
        existing.length < r) ∧
      (∀ hr, (append_to_gsheet existing df).headerRewrite = some hr →
        hr.take (existing.headD []).length =
          (existing.headD []).map (fun c => some c))) := by
  constructor
  · intro h
    subst h
    refine ⟨rfl, rfl, rfl⟩
  · intro h
    have hne : existing.isEmpty = false := by
      cases existing
      · exact absurd rfl h
      · simp
    have hplan : append_to_gsheet existing df =
        { headerRewrite :=
            if (df.cols.filter
                (fun c => !((existing.headD []).contains c))).isEmpty then none
            else some (((existing.headD []) ++ df.cols.filter
              (fun c => !((existing.headD []).contains c))).map (fun c => some c))
          write :=
            { startRow := existing.length + 1
              values := df.rows.map (fun r =>
                (if (df.cols.filter
                    (fun c => !((existing.headD []).contains c))).isEmpty then
                  existing.headD []
                else (existing.headD []) ++ df.cols.filter
                  (fun c => !((existing.headD []).contains c))).map
                  (alignedCell df.cols r))
              range := rangeChars (existing.length + 1)
                (if (df.cols.filter
                    (fun c => !((existing.headD []).contains c))).isEmpty then
                  existing.headD []
                else (existing.headD []) ++ df.cols.filter
                  (fun c => !((existing.headD []).contains c))).length
                (existing.length + 1 + df.rows.length - 1) } } := by
      rw [append_to_gsheet]
      simp [hne]
    refine ⟨by rw [hplan], by rw [hplan]; simp, ?_, ?_, ?_⟩
    · rw [writtenRows, hplan]
      simp
    · intro r hr
      rw [writtenRows, hplan] at hr
      simp only at hr
      rw [List.mem_range'] at hr
      obtain ⟨i, hi, rfl⟩ := hr
      simp [List.length_map]
      omega
    · intro hrw hhrw
      rw [hplan] at hhrw
      simp only at hhrw
      by_cases hm : (df.cols.filter
          (fun c => !((existing.headD []).contains c))).isEmpty
      · rw [if_pos hm] at hhrw
        exact absurd hhrw (by simp)
      · rw [if_neg hm] at hhrw
        have := Option.some.inj hhrw
        subst this
        rw [List.map_append]
        rw [List.take_left' (by simp)]

/-- Witness for C1 at concrete inputs: the empty-sheet branch starts at
row 1 with the header first; the non-empty branch starts right after the
two existing rows. -/
theorem append_to_gsheet_spec_witness :
    (append_to_gsheet [] (Df.mk ["A"] [[some "x"]])).write.startRow = 1 ∧
    (append_to_gsheet [["H"], ["v"]]
      (Df.mk ["A"] [[some "x"]])).write.startRow = 3 :=
  ⟨((append_to_gsheet_spec [] (Df.mk ["A"] [[some "x"]])).1 rfl).1,
   ((append_to_gsheet_spec [["H"], ["v"]] (Df.mk ["A"] [[some "x"]])).2
      (by decide)).1⟩

/-! ## Lemmas about the orchestrator filesystem bookkeeping -/

theorem mem_fsAdd_iff (x f : String) (fs : List String) :
    x ∈ fsAdd fs f ↔ x = f ∨ x ∈ fs := by
  rw [fsAdd]
  split
  · next h =>
      have hf : f ∈ fs := by
        simpa using h
      constructor
      · exact Or.inr
      · rintro (rfl | hx)
        · exact hf
        · exact hx
  · next h =>
      simp [List.mem_cons]

theorem mem_removePath_some_iff (x f : String) (fs : List String) :
    x ∈ removePath fs (some f) ↔ x ∈ fs ∧ x ≠ f := by
  simp [removePath, List.mem_filter]

theorem removePath_none_eq (fs : List String) : removePath fs none = fs := rfl

theorem mem_finalCleanup_iff (x a b c : String) (fs : List String) :
    x ∈ finalCleanup fs (some a) (some b) (some c) ↔
      x ∈ fs ∧ x ≠ a ∧ x ≠ b ∧ x ≠ c := by
  simp [finalCleanup, mem_removePath_some_iff, and_assoc]

theorem finalCleanup_eq_nil_of_subset (fs : List String) (a b c : String)
    (h : ∀ x ∈ fs, x = a ∨ x = b ∨ x = c) :
    finalCleanup fs (some a) (some b) (some c) = [] := by
  rw [List.eq_nil_iff_forall_not_mem]
  intro x hx
  rw [mem_finalCleanup_iff] at hx
  obtain ⟨hmem, hna, hnb, hnc⟩ := hx
  rcases h x hmem with h1 | h1 | h1
  · exact hna h1
  · exact hnb h1
  · exact hnc h1

theorem mem_cleanup3 {x : String} (fs : List String) (f1 f2 t : String)
    (hx : x ∈ removePath (removePath (removePath
      (fsAdd (fsAdd (fsAdd fs f1) f2) t) (some f1)) (some f2)) (some t)) :
    x ∈ fs := by
  simp only [mem_removePath_some_iff, mem_fsAdd_iff] at hx
  tauto

/-- The exception, if any, that the baseline fetch of one downstream
model raises (per the modelled `get_main_branch_content`). -/
def downBaselineExc (d : DownOutcome) : Option PyExc :=
  match get_main_branch_content d.baselineGit with
  | Except.error e => some e
  | Except.ok _ => none

/-- The baseline fetch of one downstream model returns truthy content. -/
def downBaselineTruthy (d : DownOutcome) : Bool :=
  match get_main_branch_content d.baselineGit with
  | Except.error _ => false
  | Except.ok c => pyTruthy c

/-- The pre-execution checks of one downstream model all pass: found,
baseline fetch returned truthy content, both temporary materializations
created — the model reaches the inner try. -/
def downPre (d : DownOutcome) : Bool :=
  d.findOk && downBaselineTruthy d && d.createMainOk && d.createCurrentOk

/-- One downstream model is skipped by a `continue`: not found, or the
baseline fetch returned (without raising) a falsy value, or a temporary
materialization failed to be created. -/
def downSkip (d : DownOutcome) : Bool :=
  !d.findOk ||
    ((downBaselineExc d).isNone &&
      (!(downBaselineTruthy d) || !(d.createMainOk && d.createCurrentOk)))

/-- The execution steps of one downstream model: both dbt runs and the
comparison succeed. -/
def downExecOk (d : DownOutcome) : Bool :=
  d.runMainOk && d.runCurrentOk && d.compareOk

/-- Control outcome (attempted, compared, propagating exception) of the
downstream loop, computed from the per-model outcomes alone. -/
def downstreamCtrl : List (String × DownOutcome) →
    List String × List String × Option PyExc
  | [] => ([], [], none)
  | (m, d) :: rest =>
      if !d.findOk then downstreamCtrl rest
      else
        match get_main_branch_content d.baselineGit with
        | Except.error e => ([], [], some e)
        | Except.ok mainContent =>
          if !(pyTruthy mainContent) then downstreamCtrl rest
          else if !(d.createMainOk && d.createCurrentOk) then downstreamCtrl rest
          else if downExecOk d then
            let r := downstreamCtrl rest
            (m :: r.1, m :: r.2.1, r.2.2)
          else ([m], [], some PyExc.calledProcessError)

theorem processDownstream_ctrl (ds : List (String × DownOutcome)) :
    ∀ fs, (processDownstream fs ds).attempted = (downstreamCtrl ds).1 ∧
      (processDownstream fs ds).compared = (downstreamCtrl ds).2.1 ∧
      (processDownstream fs ds).exc = (downstreamCtrl ds).2.2 := by
  induction ds with
  | nil =>
      intro fs
      simp [processDownstream, downstreamCtrl]
  | cons p rest ih =>
      obtain ⟨m, d⟩ := p
      intro fs
      obtain ⟨f, g, cm, cc, rm, rc, co⟩ := d
      cases f with
      | false => simp [processDownstream, downstreamCtrl, ih]
      | true =>
        cases hg : get_main_branch_content g with
        | error e =>
            simp [processDownstream, downstreamCtrl, hg]
        | ok mainContent =>
          cases ht : pyTruthy mainContent with
          | false => simp [processDownstream, downstreamCtrl, hg, ht, ih]
          | true =>
            cases cm with
            | false =>
                simp [processDownstream, downstreamCtrl, hg, ht, ih]
            | true =>
              cases cc with
              | false =>
                  simp [processDownstream, downstreamCtrl, hg, ht, ih]
              | true =>
                cases rm with
                | false =>
                    simp [processDownstream, downstreamCtrl, downExecOk,
                      hg, ht]
                | true =>
                  cases rc with
                  | false =>
                      simp [processDownstream, downstreamCtrl, downExecOk,
                        hg, ht]
                  | true =>
                    cases co with
                    | false =>
                        simp [processDownstream, downstreamCtrl, downExecOk,
                          hg, ht]
                    | true =>
                        simp [processDownstream, downstreamCtrl, downExecOk,
                          hg, ht, ih]

theorem processDownstream_fs_subset (ds : List (String × DownOutcome)) :
    ∀ fs, (∀ p ∈ ds, p.2.createMainOk = p.2.createCurrentOk) →
      ∀ x ∈ (processDownstream fs ds).fs, x ∈ fs := by
  induction ds with
  | nil =>
      intro fs _ x hx
      simpa [processDownstream] using hx
  | cons p rest ih =>
      obtain ⟨m, d⟩ := p
      intro fs hbal x hx
      have hbd : d.createMainOk = d.createCurrentOk := hbal (m, d) (by simp)
      have hbr : ∀ q ∈ rest, q.2.createMainOk = q.2.createCurrentOk :=
        fun q hq => hbal q (List.mem_cons_of_mem _ hq)
      obtain ⟨f, g, cm, cc, rm, rc, co⟩ := d
      simp only [DownOutcome.createMainOk, DownOutcome.createCurrentOk] at hbd
      cases f with
      | false =>
          simp only [processDownstream, Bool.not_false, if_true] at hx
          exact ih fs hbr x hx
      | true =>
        cases hg : get_main_branch_content g with
        | error e =>
            simp [processDownstream, hg] at hx
            simp [hx]
        | ok mainContent =>
          cases ht : pyTruthy mainContent with
          | false =>
              simp [processDownstream, hg, ht] at hx
              exact ih fs hbr x hx
          | true =>
            cases cm with
            | false =>
                cases cc with
                | false =>
                    simp [processDownstream, hg, ht] at hx
                    exact ih fs hbr x hx
                | true => exact absurd hbd (by simp)
            | true =>
              cases cc with
              | false => exact absurd hbd (by simp)
              | true =>
                cases rm with
                | false =>
                    simp [processDownstream, hg, ht] at hx
                    exact mem_cleanup3 fs _ _ _ hx
                | true =>
                  cases rc with
                  | false =>
                      simp [processDownstream, hg, ht] at hx
                      exact mem_cleanup3 fs _ _ _ hx
                  | true =>
                    cases co with
                    | false =>
                        simp [processDownstream, hg, ht] at hx
                        exact mem_cleanup3 fs _ _ _ hx
                    | true =>
                        simp [processDownstream, hg, ht] at hx
                        exact mem_cleanup3 fs _ _ _ (ih _ hbr x hx)

/-- A downstream baseline fetch whose two git calls succeed with
non-empty content. -/
def baselineFound : GitEnv :=
  GitEnv.mk (SubprocResult.ok "/repo") (SubprocResult.ok "select 1 as id")

/-- A downstream baseline fetch for a model absent from the main branch:
`git show` exits non-zero, so the modelled `get_main_branch_content`
raises AttributeError instead of returning. -/
def baselineMissing : GitEnv :=
  GitEnv.mk (SubprocResult.ok "/repo")
    (SubprocResult.nonzero "fatal: path does not exist in main")

/-- Counterexample for C4: a run in which the downstream model `rpt` has
its main-branch temporary materialization created but the current-branch
one fails to be created takes the `continue` path before the inner
try/finally, so the created file survives every cleanup step: the run
exits normally with the temporary materialization still on disk. -/
theorem cleanup_leak_cex :
    (runMain
        { modelName := "orders", findOk := true, baselineOk := true,
          createMainOk := true, createCurrentOk := true, checkoutOk := true,
          runMainOk := true, runCurrentOk := true, compareOk := true,
          includeDownstream := true,
          downstream := [("rpt",
            { findOk := true, baselineGit := baselineFound, createMainOk := true,
              createCurrentOk := false, runMainOk := true,
              runCurrentOk := true, compareOk := true })] }).fs =
      [tempModelFile "rpt" "main_down_rpt"] ∧
    (runMain
        { modelName := "orders", findOk := true, baselineOk := true,
          createMainOk := true, createCurrentOk := true, checkoutOk := true,
          runMainOk := true, runCurrentOk := true, compareOk := true,
          includeDownstream := true,
          downstream := [("rpt",
            { findOk := true, baselineGit := baselineFound, createMainOk := true,
              createCurrentOk := false, runMainOk := true,
              runCurrentOk := true, compareOk := true })] }).exit =
      ExitKind.success := by
  exact ⟨rfl, rfl⟩

/-- Claim C4 (amended): the two top-level temporary materializations and
the generated comparison template are removed on every path by the final
unconditional cleanup, and whenever each downstream model has its two
temporary materializations either both created or both absent, every
generated file is removed before exit; but when exactly one of a
downstream model's two temporary-materialization creations succeeds, the
loop skips to the next model without cleanup and the created file is left
behind. -/
theorem cleanup_amended (env : RunEnv) :
    ((tempModelFile env.modelName "main") ∉ (runMain env).fs ∧
     (tempModelFile env.modelName "current") ∉ (runMain env).fs ∧
     comparisonTemplateFile ∉ (runMain env).fs) ∧
    ((∀ p ∈ env.downstream, p.2.createMainOk = p.2.createCurrentOk) →
      (runMain env).fs = []) := by
  obtain ⟨name, f, b, cm, cc, ck, rm, rc, co, incl, ds⟩ := env
  cases f with
  | false => simp [runMain]
  | true =>
    cases b with
    | false => simp [runMain]
    | true =>
      cases cm with
      | false =>
          cases cc with
          | false => simp [runMain, finalCleanup, removePath, fsAdd]
          | true => simp [runMain, finalCleanup, removePath, fsAdd]
      | true =>
        cases cc with
        | false => simp [runMain, finalCleanup, removePath, fsAdd]
        | true =>
          cases ck with
          | false =>
              constructor
              · refine ⟨?_, ?_, ?_⟩ <;> simp [runMain, mem_finalCleanup_iff]
              · intro hbal
                simp only [runMain]
                simp only [Bool.not_true, Bool.false_eq_true, if_false,
                  Option.isNone_some, Bool.or_self, Bool.not_false, if_true]
                apply finalCleanup_eq_nil_of_subset
                intro x hx
                simp [mem_fsAdd_iff] at hx
                tauto
          | true =>
            cases rm with
            | false =>
                constructor
                · refine ⟨?_, ?_, ?_⟩ <;> simp [runMain, mem_finalCleanup_iff]
                · intro hbal
                  simp only [runMain]
                  simp only [Bool.not_true, Bool.false_eq_true, if_false,
                    Option.isNone_some, Bool.or_self, Bool.not_false, if_true]
                  apply finalCleanup_eq_nil_of_subset
                  intro x hx
                  simp [mem_fsAdd_iff] at hx
                  tauto
            | true =>
              cases rc with
              | false =>
                  constructor
                  · refine ⟨?_, ?_, ?_⟩ <;> simp [runMain, mem_finalCleanup_iff]
                  · intro hbal
                    simp only [runMain]
                    simp only [Bool.not_true, Bool.false_eq_true, if_false,
                      Option.isNone_some, Bool.or_self, Bool.not_false, if_true]
                    apply finalCleanup_eq_nil_of_subset
                    intro x hx
                    simp [mem_fsAdd_iff] at hx
                    tauto
              | true =>
                cases co with
                | false =>
                    constructor
                    · refine ⟨?_, ?_, ?_⟩ <;>
                        simp [runMain, mem_finalCleanup_iff]
                    · intro hbal
                      simp only [runMain]
                      simp only [Bool.not_true, Bool.false_eq_true, if_false,
                        Option.isNone_some, Bool.or_self, Bool.not_false,
                        if_true]
                      apply finalCleanup_eq_nil_of_subset
                      intro x hx
                      simp [mem_fsAdd_iff] at hx
                      tauto
                | true =>
                  cases incl with
                  | false =>
                      constructor
                      · refine ⟨?_, ?_, ?_⟩ <;>
                          simp [runMain, mem_finalCleanup_iff]
                      · intro hbal
                        simp only [runMain]
                        simp only [Bool.not_true, Bool.false_eq_true, if_false,
                          Option.isNone_some, Bool.or_self, Bool.not_false,
                          if_true]
                        apply finalCleanup_eq_nil_of_subset
                        intro x hx
                        simp [mem_fsAdd_iff] at hx
                        tauto
                  | true =>
                      constructor
                      · refine ⟨?_, ?_, ?_⟩ <;>
                          simp [runMain, mem_finalCleanup_iff]
                      · intro hbal
                        simp only [runMain]
                        simp only [Bool.not_true, Bool.false_eq_true, if_false,
                          Option.isNone_some, Bool.or_self, Bool.not_false,
                          if_true]
                        apply finalCleanup_eq_nil_of_subset
                        intro x hx
                        have hx2 := processDownstream_fs_subset ds _ hbal x hx
                        simp [mem_fsAdd_iff] at hx2
                        tauto

/-- Witness for C4 (amended) at a concrete input: a fully successful run
including one balanced downstream model leaves no generated file behind. -/
theorem cleanup_amended_witness :
    (runMain
        { modelName := "orders", findOk := true, baselineOk := true,
          createMainOk := true, createCurrentOk := true, checkoutOk := true,
          runMainOk := true, runCurrentOk := true, compareOk := true,
          includeDownstream := true,
          downstream := [("rpt",
            { findOk := true, baselineGit := baselineFound, createMainOk := true,
              createCurrentOk := true, runMainOk := true,
              runCurrentOk := true, compareOk := true })] }).fs = [] :=
  (cleanup_amended _).2 (by decide)

/-- Counterexample for C5: two downstream models; comparing the first
fails at its dbt run (non-zero status).  The raised CalledProcessError
propagates out of the downstream loop — the `try` around the downstream
execution has a `finally` but no `except` — so the second downstream
model, which would have succeeded, is never attempted. -/
theorem downstream_abort_cex :
    (runMain
        { modelName := "orders", findOk := true, baselineOk := true,
          createMainOk := true, createCurrentOk := true, checkoutOk := true,
          runMainOk := true, runCurrentOk := true, compareOk := true,
          includeDownstream := true,
          downstream :=
            [("d1",
              { findOk := true, baselineGit := baselineFound, createMainOk := true,
                createCurrentOk := true, runMainOk := false,
                runCurrentOk := true, compareOk := true }),
             ("d2",
              { findOk := true, baselineGit := baselineFound, createMainOk := true,
                createCurrentOk := true, runMainOk := true,
                runCurrentOk := true, compareOk := true })] }).attempted =
      ["d1"] ∧
    (runMain
        { modelName := "orders", findOk := true, baselineOk := true,
          createMainOk := true, createCurrentOk := true, checkoutOk := true,
          runMainOk := true, runCurrentOk := true, compareOk := true,
          includeDownstream := true,
          downstream :=
            [("d1",
              { findOk := true, baselineGit := baselineFound, createMainOk := true,
                createCurrentOk := true, runMainOk := false,
                runCurrentOk := true, compareOk := true }),
             ("d2",
              { findOk := true, baselineGit := baselineFound, createMainOk := true,
                createCurrentOk := true, runMainOk := true,
                runCurrentOk := true, compareOk := true })] }).exit =
      ExitKind.uncaught PyExc.calledProcessError := by
  exact ⟨rfl, rfl⟩

/-- Claim C5 (amended): a downstream model that is not found, whose
baseline fetch returns a falsy value without raising, or whose
temporary-materialization creation fails is skipped and the remaining
downstream models are processed exactly as if it were absent; but a
downstream model absent from the main branch makes the baseline fetch
raise (`git show` exits non-zero and the CalledProcessError handler
itself raises), aborting the loop before that model is even attempted;
and a build-tool invocation returning a non-zero status during a
downstream model's execution raises CalledProcessError which, after that
model's cleanup, propagates and aborts the comparisons of all remaining
downstream models. -/
theorem downstream_independence_amended (fs : List String) (m : String)
    (d : DownOutcome) (rest : List (String × DownOutcome)) :
    (downSkip d = true →
      (processDownstream fs ((m, d) :: rest)).attempted =
        (processDownstream fs rest).attempted ∧
      (processDownstream fs ((m, d) :: rest)).compared =
        (processDownstream fs rest).compared ∧
      (processDownstream fs ((m, d) :: rest)).exc =
        (processDownstream fs rest).exc) ∧
    (∀ e, d.findOk = true → downBaselineExc d = some e →
      (processDownstream fs ((m, d) :: rest)).attempted = [] ∧
      (processDownstream fs ((m, d) :: rest)).compared = [] ∧
      (processDownstream fs ((m, d) :: rest)).exc = some e) ∧
    (downPre d = true → downExecOk d = false →
      (processDownstream fs ((m, d) :: rest)).attempted = [m] ∧
      (processDownstream fs ((m, d) :: rest)).compared = [] ∧
      (processDownstream fs ((m, d) :: rest)).exc =
        some PyExc.calledProcessError) := by
  refine ⟨?_, ?_, ?_⟩
  · intro hskip
    have h1 := processDownstream_ctrl ((m, d) :: rest) fs
    have h2 := processDownstream_ctrl rest fs
    have hc : downstreamCtrl ((m, d) :: rest) = downstreamCtrl rest := by
      obtain ⟨f, g, cm, cc, rm, rc, co⟩ := d
      cases f with
      | false => simp [downstreamCtrl]
      | true =>
        cases hg : get_main_branch_content g with
        | error e =>
            exact absurd hskip (by simp [downSkip, downBaselineExc, hg])
        | ok c =>
          cases ht : pyTruthy c with
          | false => simp [downstreamCtrl, hg, ht]
          | true =>
            cases cm with
            | false => simp [downstreamCtrl, hg, ht]
            | true =>
              cases cc with
              | false => simp [downstreamCtrl, hg, ht]
              | true =>
                  exact absurd hskip (by simp [downSkip, downBaselineExc,
                    downBaselineTruthy, hg, ht])
    exact ⟨by rw [h1.1, hc, h2.1], by rw [h1.2.1, hc, h2.2.1],
      by rw [h1.2.2, hc, h2.2.2]⟩
  · intro e hf hexc
    have h1 := processDownstream_ctrl ((m, d) :: rest) fs
    have hc : downstreamCtrl ((m, d) :: rest) = ([], [], some e) := by
      obtain ⟨f, g, cm, cc, rm, rc, co⟩ := d
      cases hg : get_main_branch_content g with
      | error e2 =>
          simp only [downBaselineExc, hg, Option.some.injEq] at hexc
          subst hexc
          cases f with
          | false => exact absurd hf (by simp)
          | true => simp [downstreamCtrl, hg]
      | ok c =>
          simp [downBaselineExc, hg] at hexc
    exact ⟨by rw [h1.1, hc], by rw [h1.2.1, hc], by rw [h1.2.2, hc]⟩
  · intro hpre hexec
    have h1 := processDownstream_ctrl ((m, d) :: rest) fs
    have hc : downstreamCtrl ((m, d) :: rest) =
        ([m], [], some PyExc.calledProcessError) := by
      obtain ⟨f, g, cm, cc, rm, rc, co⟩ := d
      cases hg : get_main_branch_content g with
      | error e =>
          exact absurd hpre (by simp [downPre, downBaselineTruthy, hg])
      | ok c =>
          have hparts : f = true ∧ pyTruthy c = true ∧ cm = true ∧ cc = true := by
            simpa [downPre, downBaselineTruthy, hg, and_assoc] using hpre
          obtain ⟨hf2, ht2, hcm2, hcc2⟩ := hparts
          subst hf2
          subst hcm2
          subst hcc2
          simp [downstreamCtrl, hg, ht2, hexec]
    exact ⟨by rw [h1.1, hc], by rw [h1.2.1, hc], by rw [h1.2.2, hc]⟩

/-- Witness for C5 (amended) at concrete inputs: a not-found `d0` leaves
the processing of `d2` unchanged; a `dm` absent from the main branch
aborts the loop before any attempt, propagating the AttributeError; an
execution failure on `d1` makes it the only attempted downstream model. -/
theorem downstream_independence_amended_witness :
    (processDownstream []
        [("d0",
          { findOk := false, baselineGit := baselineFound, createMainOk := true,
            createCurrentOk := true, runMainOk := true, runCurrentOk := true,
            compareOk := true }),
         ("d2",
          { findOk := true, baselineGit := baselineFound, createMainOk := true,
            createCurrentOk := true, runMainOk := true, runCurrentOk := true,
            compareOk := true })]).attempted =
      (processDownstream []
        [("d2",
          { findOk := true, baselineGit := baselineFound, createMainOk := true,
            createCurrentOk := true, runMainOk := true, runCurrentOk := true,
            compareOk := true })]).attempted ∧
    (processDownstream []
        [("dm",
          { findOk := true, baselineGit := baselineMissing, createMainOk := true,
            createCurrentOk := true, runMainOk := true, runCurrentOk := true,
            compareOk := true }),
         ("d2",
          { findOk := true, baselineGit := baselineFound, createMainOk := true,
            createCurrentOk := true, runMainOk := true, runCurrentOk := true,
            compareOk := true })]).attempted = [] ∧
    (processDownstream []
        [("dm",
          { findOk := true, baselineGit := baselineMissing, createMainOk := true,
            createCurrentOk := true, runMainOk := true, runCurrentOk := true,
            compareOk := true }),
         ("d2",
          { findOk := true, baselineGit := baselineFound, createMainOk := true,
            createCurrentOk := true, runMainOk := true, runCurrentOk := true,
            compareOk := true })]).exc =
      some (PyExc.attributeError "decode") ∧
    (processDownstream []
        [("d1",
          { findOk := true, baselineGit := baselineFound, createMainOk := true,
            createCurrentOk := true, runMainOk := false, runCurrentOk := true,
            compareOk := true }),
         ("d2",
          { findOk := true, baselineGit := baselineFound, createMainOk := true,
            createCurrentOk := true, runMainOk := true, runCurrentOk := true,
            compareOk := true })]).attempted = ["d1"] :=
  ⟨((downstream_independence_amended [] "d0" _ _).1 (by decide)).1,
   ((downstream_independence_amended [] "dm" _ _).2.1
      (PyExc.attributeError "decode") (by decide) (by decide)).1,
   ((downstream_independence_amended [] "dm" _ _).2.1
      (PyExc.attributeError "decode") (by decide) (by decide)).2.2,
   ((downstream_independence_amended [] "d1" _ _).2.2 (by decide) (by decide)).1⟩
